import Mathlib

/-!
Verification of the pose-to-scene annotation and playback core of the
Future-Sportler archery-analysis frontend, shallowly embedded from the
React component file (`App.js`). Coordinates and scores are modelled as
rational numbers; JavaScript strings as Lean strings.
-/

/-- One normalized body landmark `{x, y, z}` as delivered in a frame's
`pose_landmarks` array. -/
structure Landmark where
  x : ℚ
  y : ℚ
  z : ℚ
deriving DecidableEq

/-- A 3D scene-space point (one entry of the component's `points` array). -/
structure Point3 where
  x : ℚ
  y : ℚ
  z : ℚ
deriving DecidableEq

/-- The per-landmark conversion inside `PoseVisualization`:
`[(landmark.x - 0.5) * 4, -(landmark.y - 0.5) * 4, landmark.z * 2]`. -/
def landmarkToScene (l : Landmark) : Point3 :=
  { x := (l.x - 1/2) * 4
    y := (-(l.y - 1/2)) * 4
    z := l.z * 2 }

/-- `const points = landmarks.map(landmark => ...)`: the same conversion
applied to every landmark of the current frame. -/
def framePoints (landmarks : List Landmark) : List Point3 :=
  landmarks.map landmarkToScene

/-- The spec's scale constant SX. -/
def specSX : ℚ := 4

/-- The spec's scale constant SY. -/
def specSY : ℚ := 4

/-- The spec's scale constant SZ. -/
def specSZ : ℚ := 2

/-- The Coordinate Mapper exactly as the spec words it:
`pos.x = (x - 0.5) * SX`, `pos.y = -(y - 0.5) * SY`, `pos.z = z * SZ`,
stated with the spec's named scale constants, to be compared with the
source's conversion `landmarkToScene`. -/
def coordinateMapperSpec (l : Landmark) : Point3 :=
  { x := (l.x - 1/2) * specSX
    y := -((l.y - 1/2) * specSY)
    z := l.z * specSZ }

/-- `needle` occurs at the start of `hay` (character lists). -/
def leadsWith : List Char → List Char → Bool
  | _, [] => true
  | [], _ :: _ => false
  | a :: hay, b :: needle => a == b && leadsWith hay needle

/-- `needle` occurs contiguously somewhere inside `hay`. -/
def hasSub : List Char → List Char → Bool
  | [], needle => needle.isEmpty
  | a :: hay, needle => leadsWith (a :: hay) needle || hasSub hay needle

/-- JavaScript `e.toLowerCase().includes(kw)` for the all-lower-case keyword
literals used in the component (`toLowerCase` lowers each character). -/
def includesCI (e kw : String) : Bool :=
  hasSub (e.data.map Char.toLower) kw.data

/-- Specification-level statement that `kw` occurs case-insensitively in
`e`: the lower-cased character list of `e` decomposes around `kw`. -/
def ContainsCI (e kw : String) : Prop :=
  ∃ p q, e.data.map Char.toLower = p ++ kw.data ++ q

/-- The `stance` category guard: `errors.some(e =>
e.toLowerCase().includes('stance'))`. -/
def stanceActive (errors : List String) : Bool :=
  errors.any fun e => includesCI e "stance"

/-- The shoulder-alignment category guard: `errors.some(e =>
e.toLowerCase().includes('shoulder') || e.toLowerCase().includes('alignment'))`. -/
def alignmentActive (errors : List String) : Bool :=
  errors.any fun e => includesCI e "shoulder" || includesCI e "alignment"

/-- The draw-phase category guard: `errors.some(e =>
e.toLowerCase().includes('draw') || e.toLowerCase().includes('elbow'))`. -/
def drawActive (errors : List String) : Bool :=
  errors.any fun e => includesCI e "draw" || includesCI e "elbow"

/-- The anchor-point category guard: `errors.some(e =>
e.toLowerCase().includes('anchor'))`. -/
def anchorActive (errors : List String) : Bool :=
  errors.any fun e => includesCI e "anchor"

/-- The colorizer's predicate for arm edges and arm joints: `errors.some(e =>
e.toLowerCase().includes('draw') || e.toLowerCase().includes('shoulder'))` —
note it tests the keyword `shoulder` but not `alignment`. -/
def armAlert (errors : List String) : Bool :=
  errors.any fun e => includesCI e "draw" || includesCI e "shoulder"

/-- The kind of one visual annotation directive pushed by
`getErrorAnnotations`. -/
inductive DirectiveKind
  | errorArrow
  | angleIndicator
  | dashedLine
  | highlightSphere
deriving DecidableEq

/-- One annotation directive: its component kind, the React `key` literal,
its anchor position, the second point of a line-like directive, its color
and its optional text label. (The fixed rotation literals, arc radius and
segment count of the source are constants carrying no per-frame data and
are not modelled.) -/
structure Directive where
  kind : DirectiveKind
  key : String
  position : Point3
  target : Option Point3
  color : String
  label : Option String
deriving DecidableEq

/-- `getErrorAnnotations`: for each keyword-matched category, push the
directives of the source in order (stance, shoulder/alignment, draw,
anchor), each block guarded by the presence of its source landmarks
(`points[i]` is `undefined`, hence falsy, when absent). -/
def getErrorAnnotations (errors : List String) (points : List Point3) : List Directive :=
  (if stanceActive errors then
    match points.get? 27, points.get? 28 with
    | some leftAnkle, some rightAnkle =>
        [{ kind := .errorArrow
           key := "stance-error"
           position := { x := (leftAnkle.x + rightAnkle.x) / 2, y := leftAnkle.y - 1/2, z := leftAnkle.z }
           target := none
           color := "#ff4444"
           label := some "Adjust Stance Width" }]
    | _, _ => []
  else []) ++
  (if alignmentActive errors then
    match points.get? 11, points.get? 12 with
    | some leftShoulder, some rightShoulder =>
        [{ kind := .angleIndicator
           key := "shoulder-angle"
           position := { x := (leftShoulder.x + rightShoulder.x) / 2
                         y := (leftShoulder.y + rightShoulder.y) / 2
                         z := leftShoulder.z }
           target := none
           color := "#ff6b6b"
           label := none },
         { kind := .errorArrow
           key := "shoulder-error"
           position := { x := rightShoulder.x + 3/10, y := rightShoulder.y, z := rightShoulder.z }
           target := none
           color := "#ff6b6b"
           label := some "Level Shoulders" }]
    | _, _ => []
  else []) ++
  (if drawActive errors then
    match points.get? 14, points.get? 12, points.get? 16 with
    | some elbow, some shoulder, some _wrist =>
        [{ kind := .errorArrow
           key := "draw-error"
           position := { x := elbow.x + 1/5, y := elbow.y, z := elbow.z }
           target := none
           color := "#ffaa00"
           label := some "Smooth Draw Path" },
         { kind := .dashedLine
           key := "ideal-draw-path"
           position := shoulder
           target := some { x := shoulder.x + 1, y := shoulder.y, z := shoulder.z }
           color := "#00ff88"
           label := none }]
    | _, _, _ => []
  else []) ++
  (if anchorActive errors then
    match points.get? 16, points.get? 0 with
    | some wrist, some nose =>
        [{ kind := .errorArrow
           key := "anchor-error"
           position := { x := wrist.x, y := wrist.y + 3/10, z := wrist.z }
           target := none
           color := "#4ecdc4"
           label := some "Consistent Anchor" },
         { kind := .highlightSphere
           key := "anchor-zone"
           position := nose
           target := none
           color := "#4ecdc4"
           label := none }]
    | _, _ => []
  else [])

/-- Arm landmark indices `[11, 12, 13, 14, 15, 16]`. -/
def armIdx : List Nat := [11, 12, 13, 14, 15, 16]

/-- Leg landmark indices used by the edge colorizer
`[23, 24, 25, 26, 27, 28]`. -/
def legIdx : List Nat := [23, 24, 25, 26, 27, 28]

/-- The joint indices the joint colorizer treats as stance points:
`[23, 24, 27, 28]` — the knees 25 and 26 are NOT in this list. -/
def stanceJointIdx : List Nat := [23, 24, 27, 28]

/-- The skeleton-connection color selection: default `#00ff88`; arm-touching
edges get `#ff6b6b` when the draw/shoulder predicate fires, else `#4ecdc4`;
otherwise leg-touching edges get `#ff4444` when stance fires, else
`#ffd93d`. -/
def edgeColor (errors : List String) (s e : Nat) : String :=
  if s ∈ armIdx ∨ e ∈ armIdx then
    if armAlert errors then "#ff6b6b" else "#4ecdc4"
  else if s ∈ legIdx ∨ e ∈ legIdx then
    if stanceActive errors then "#ff4444" else "#ffd93d"
  else "#00ff88"

/-- The joint color selection: default `#ffffff`; arm joints as the arm
edges; stance joints `[23,24,27,28]` as the leg edges; the head joint 0 gets
`#4ecdc4` when anchor fires, else stays white. -/
def jointColor (errors : List String) (i : Nat) : String :=
  if i ∈ armIdx then
    if armAlert errors then "#ff6b6b" else "#4ecdc4"
  else if i ∈ stanceJointIdx then
    if stanceActive errors then "#ff4444" else "#ffd93d"
  else if i = 0 then
    if anchorActive errors then "#4ecdc4" else "#ffffff"
  else "#ffffff"

/-- The joint size selection (`0.06` default, `0.08` arms and stance
points, `0.07` head). -/
def jointSize (i : Nat) : ℚ :=
  if i ∈ armIdx then 8/100
  else if i ∈ stanceJointIdx then 8/100
  else if i = 0 then 7/100
  else 6/100

/-- One frame of the pose sequence: the object `{ pose_landmarks: [...] }`. -/
structure Frame where
  pose_landmarks : List Landmark
deriving DecidableEq

/-- One rendered skeleton connection. -/
structure SceneEdge where
  a : Point3
  b : Point3
  color : String
deriving DecidableEq

/-- One rendered joint sphere. -/
structure SceneJoint where
  position : Point3
  size : ℚ
  color : String
deriving DecidableEq

/-- The per-frame render description the component emits. -/
structure Scene where
  edges : List SceneEdge
  joints : List SceneJoint
  directives : List Directive
deriving DecidableEq

/-- The MediaPipe skeleton topology `connections` (arms, torso, legs,
face). -/
def connections : List (Nat × Nat) :=
  [(11, 12), (11, 13), (13, 15), (12, 14), (14, 16),
   (11, 23), (12, 24), (23, 24),
   (23, 25), (25, 27), (24, 26), (26, 28),
   (0, 1), (1, 2), (2, 3), (3, 7), (0, 4), (4, 5), (5, 6), (6, 8)]

/-- The render body of the `PoseVisualization` component. `none` models the
component returning `null` (it renders nothing and has no error channel):
when `poseData[currentFrame]` is absent, or the frame has fewer than 33
landmarks. Otherwise it emits the colored edges (each guarded by
`start < points.length && end < points.length`, here the `get?` matches),
the colored joints and the error annotations. -/
def PoseVisualization (poseData : List Frame) (currentFrame : Nat)
    (errors : List String) : Option Scene :=
  match poseData.get? currentFrame with
  | none => none
  | some f =>
    if f.pose_landmarks.length < 33 then none
    else
      some
        { edges := connections.filterMap fun c =>
            match (framePoints f.pose_landmarks).get? c.1,
                (framePoints f.pose_landmarks).get? c.2 with
            | some sp, some ep => some { a := sp, b := ep, color := edgeColor errors c.1 c.2 }
            | _, _ => none
          joints := (framePoints f.pose_landmarks).mapIdx fun i p =>
            { position := p, size := jointSize i, color := jointColor errors i }
          directives := getErrorAnnotations errors (framePoints f.pose_landmarks) }

/-- The edges of an optional scene (`null` renders nothing). -/
def edgesOf : Option Scene → List SceneEdge
  | none => []
  | some s => s.edges

/-- The joints of an optional scene. -/
def jointsOf : Option Scene → List SceneJoint
  | none => []
  | some s => s.joints

/-- The annotation directives of an optional scene. -/
def directivesOf : Option Scene → List Directive
  | none => []
  | some s => s.directives

/-- The playback-relevant React state. `poseLen` is `some n` when an
analysis with an `n`-frame `pose_data` array is loaded and `none` when
`analysis` is null or carries no `pose_data`. `timers` lists, oldest first,
one entry per `setInterval` callback still running, each holding the
`analysis.pose_data.length` its closure captured when it was spawned. -/
structure AppState where
  poseLen : Option Nat
  currentFrame : Nat
  isPlaying : Bool
  timers : List Nat
deriving DecidableEq

/-- `playAnimation`: returns unchanged when `!analysis?.pose_data` (note an
empty array is truthy in JavaScript, so a zero-length sequence passes the
guard); otherwise `setIsPlaying(true)` and `setInterval` spawns a new timer
whose callback closes over the current `pose_data`. There is no guard on
`isPlaying` and no interval is cleared here. -/
def playAnimation (s : AppState) : AppState :=
  match s.poseLen with
  | none => s
  | some n => { s with isPlaying := true, timers := s.timers ++ [n] }

/-- `pauseAnimation`: only `setIsPlaying(false)`. The interval handle is a
local constant of `playAnimation`, so no timer is cleared. -/
def pauseAnimation (s : AppState) : AppState :=
  { s with isPlaying := false }

/-- `resetAnimation`: `setCurrentFrame(0); setIsPlaying(false)`; again no
interval is cleared. -/
def resetAnimation (s : AppState) : AppState :=
  { s with currentFrame := 0, isPlaying := false }

/-- One firing of the `i`-th running interval callback:
`setCurrentFrame(prev => ...)` with the `pose_data.length` that callback
captured. When `prev >= length - 1` (for `length = 0` the JavaScript
comparison `prev >= -1` is always true, as is `length - 1 ≤ prev` with
truncated subtraction) it runs `setIsPlaying(false); clearInterval(interval)`
and keeps `prev`; otherwise it advances to `prev + 1`. -/
def intervalTick (s : AppState) (i : Nat) : AppState :=
  match s.timers.get? i with
  | none => s
  | some len =>
    if len - 1 ≤ s.currentFrame then
      { s with isPlaying := false, timers := s.timers.eraseIdx i }
    else
      { s with currentFrame := s.currentFrame + 1 }

/-- The success path of `analyzeVideo`: `setAnalysis(result.analysis)` then
`setCurrentFrame(0)`. Neither `isPlaying` nor any running interval is
touched (the intermediate `setAnalysis(null)`/`setLoading` calls do not
affect the playback state either). -/
def loadAnalysis (s : AppState) (newLen : Nat) : AppState :=
  { s with poseLen := some newLen, currentFrame := 0 }

/-- One playback-controller operation: the three UI controls plus one tick
of the `i`-th running timer. -/
inductive PlaybackOp
  | play
  | pause
  | reset
  | tick (i : Nat)
deriving DecidableEq

/-- Apply one playback operation. -/
def applyOp (s : AppState) : PlaybackOp → AppState
  | .play => playAnimation s
  | .pause => pauseAnimation s
  | .reset => resetAnimation s
  | .tick i => intervalTick s i

/-- Run a sequence of playback operations from a state. -/
def runOps (s : AppState) (ops : List PlaybackOp) : AppState :=
  ops.foldl applyOp s

/-- The idle state right after an analysis with an `n`-frame pose sequence
has been loaded: frame 0, not playing, no timer running. -/
def initState (n : Nat) : AppState :=
  { poseLen := some n, currentFrame := 0, isPlaying := false, timers := [] }

/-- One phase report `{ errors: [string], metrics: {name: number} }`. A
metrics object is modelled as an association list in insertion order. -/
structure PhaseAnalysis where
  errors : List String
  metrics : List (String × ℚ)
deriving DecidableEq

/-- The `analysis` object of a loaded result: the overall score and the
four optional phase reports. -/
structure AnalysisReport where
  overall_score : ℚ
  stance_analysis : Option PhaseAnalysis
  draw_analysis : Option PhaseAnalysis
  anchor_analysis : Option PhaseAnalysis
  release_analysis : Option PhaseAnalysis
deriving DecidableEq

/-- Key lookup in a JavaScript-object-as-association-list: the LAST binding
of a key wins, exactly as object spread lets later sources override earlier
ones. -/
def objGet (l : List (String × ℚ)) (k : String) : Option ℚ :=
  (l.reverse.find? fun p => p.1 == k).map Prod.snd

/-- `phase?.errors || []`. -/
def phaseErrors : Option PhaseAnalysis → List String
  | none => []
  | some p => p.errors

/-- `...phase?.metrics` (spreading `undefined` adds nothing). -/
def phaseMetrics : Option PhaseAnalysis → List (String × ℚ)
  | none => []
  | some p => p.metrics

/-- The aggregated `{errors, metrics}` pair `getCurrentAnalysis` returns. -/
structure CurrentAnalysis where
  errors : List String
  metrics : List (String × ℚ)
deriving DecidableEq

/-- `getCurrentAnalysis`: `{errors: [], metrics: {}}` when no analysis is
loaded; otherwise the four phases' errors concatenated, and the four
phases' metrics spread in the order stance, draw, anchor, release with
`overall_score` written last. -/
def getCurrentAnalysis (analysis : Option AnalysisReport) : CurrentAnalysis :=
  match analysis with
  | none => { errors := [], metrics := [] }
  | some a =>
    { errors := phaseErrors a.stance_analysis ++ phaseErrors a.draw_analysis ++
        phaseErrors a.anchor_analysis ++ phaseErrors a.release_analysis
      metrics := phaseMetrics a.stance_analysis ++ phaseMetrics a.draw_analysis ++
        phaseMetrics a.anchor_analysis ++ phaseMetrics a.release_analysis ++
        [("overall_score", a.overall_score)] }

/-- The level/color/icon triple of `getVideoLevel` (the icon emoji are
rendered here as ASCII names; they carry no logic). -/
structure SkillLevel where
  level : String
  color : String
  icon : String
deriving DecidableEq

/-- `getVideoLevel`: ordered threshold bands, highest first, each an
inclusive lower bound. -/
def getVideoLevel (score : ℚ) : SkillLevel :=
  if score ≥ 80 then { level := "Expert", color := "#00ff88", icon := "trophy" }
  else if score ≥ 60 then { level := "Advanced", color := "#4ecdc4", icon := "star" }
  else if score ≥ 40 then { level := "Intermediate", color := "#ffd93d", icon := "chart" }
  else if score ≥ 20 then { level := "Beginner", color := "#ffaa00", icon := "dart" }
  else { level := "Needs Practice", color := "#ff6b6b", icon := "flex" }

theorem leadsWith_iff (needle hay : List Char) :
    leadsWith hay needle = true ↔ ∃ rest, hay = needle ++ rest := by
  induction needle generalizing hay with
  | nil => simp [leadsWith]
  | cons b bs ih =>
    cases hay with
    | nil => simp [leadsWith]
    | cons a as =>
      simp only [leadsWith, Bool.and_eq_true, beq_iff_eq, ih, List.cons_append,
        List.cons.injEq]
      constructor
      · rintro ⟨hab, rest, hrest⟩
        exact ⟨rest, hab, hrest⟩
      · rintro ⟨rest, hab, hrest⟩
        exact ⟨hab, rest, hrest⟩

theorem hasSub_iff (hay needle : List Char) :
    hasSub hay needle = true ↔ ∃ p q, hay = p ++ needle ++ q := by
  induction hay with
  | nil =>
    cases needle with
    | nil => exact ⟨fun _ => ⟨[], [], rfl⟩, fun _ => rfl⟩
    | cons b bs => simp [hasSub]
  | cons a as ih =>
    constructor
    · intro h
      have h' : leadsWith (a :: as) needle = true ∨ hasSub as needle = true := by
        have := h
        simp only [hasSub, Bool.or_eq_true] at this
        exact this
      rcases h' with h1 | h1
      · rcases (leadsWith_iff needle (a :: as)).mp h1 with ⟨rest, hrest⟩
        exact ⟨[], rest, by simp [hrest]⟩
      · rcases ih.mp h1 with ⟨p, q, hpq⟩
        exact ⟨a :: p, q, by simp [hpq]⟩
    · rintro ⟨p, q, hpq⟩
      show (leadsWith (a :: as) needle || hasSub as needle) = true
      rcases p with _ | ⟨x, p'⟩
      · simp only [List.nil_append] at hpq
        simp [(leadsWith_iff needle (a :: as)).mpr ⟨q, hpq⟩]
      · rw [List.cons_append, List.cons_append] at hpq
        injection hpq with h1 h2
        simp [ih.mpr ⟨p', q, by simpa using h2⟩]
/-- Correctness of the embedded `includes` test: it is true exactly when the
lower-cased text decomposes around the keyword. -/
theorem includesCI_iff (e kw : String) :
    includesCI e kw = true ↔ ContainsCI e kw :=
  hasSub_iff (e.data.map Char.toLower) kw.data

/-- The stance category fires exactly when some entry case-insensitively
contains "stance". -/
theorem stanceActive_iff (errors : List String) :
    stanceActive errors = true ↔ ∃ e ∈ errors, ContainsCI e "stance" := by
  simp [stanceActive, List.any_eq_true, includesCI_iff]

/-- The alignment category fires exactly when some entry contains "shoulder"
or "alignment". -/
theorem alignmentActive_iff (errors : List String) :
    alignmentActive errors = true ↔
      ∃ e ∈ errors, ContainsCI e "shoulder" ∨ ContainsCI e "alignment" := by
  simp [alignmentActive, List.any_eq_true, Bool.or_eq_true, includesCI_iff]

/-- The draw category fires exactly when some entry contains "draw" or
"elbow". -/
theorem drawActive_iff (errors : List String) :
    drawActive errors = true ↔
      ∃ e ∈ errors, ContainsCI e "draw" ∨ ContainsCI e "elbow" := by
  simp [drawActive, List.any_eq_true, Bool.or_eq_true, includesCI_iff]

/-- The anchor category fires exactly when some entry contains "anchor". -/
theorem anchorActive_iff (errors : List String) :
    anchorActive errors = true ↔ ∃ e ∈ errors, ContainsCI e "anchor" := by
  simp [anchorActive, List.any_eq_true, includesCI_iff]

/-- The colorizer's arm predicate fires exactly when some entry contains
"draw" or "shoulder" (not "alignment"). -/
theorem armAlert_iff (errors : List String) :
    armAlert errors = true ↔
      ∃ e ∈ errors, ContainsCI e "draw" ∨ ContainsCI e "shoulder" := by
  simp [armAlert, List.any_eq_true, Bool.or_eq_true, includesCI_iff]

/-- An error list activating exactly a chosen subset of the four
categories: one single-keyword entry per requested category. -/
def mkErr (a b c d : Bool) : List String :=
  (cond a ["stance"] []) ++ (cond b ["shoulder"] []) ++
    (cond c ["draw"] []) ++ (cond d ["anchor"] [])

/-- C5: each category is active iff some entry case-insensitively contains
its keywords (stance: "stance"; alignment: "shoulder" or "alignment"; draw:
"draw" or "elbow"; anchor: "anchor"); the four categories are independent —
every one of the sixteen activation patterns is realized by some error
list; and an empty error list activates no category and makes the
annotation generator emit zero directives. -/
theorem errorClassifier_c5 :
    (∀ errors, stanceActive errors = true ↔ ∃ e ∈ errors, ContainsCI e "stance") ∧
    (∀ errors, alignmentActive errors = true ↔
      ∃ e ∈ errors, ContainsCI e "shoulder" ∨ ContainsCI e "alignment") ∧
    (∀ errors, drawActive errors = true ↔
      ∃ e ∈ errors, ContainsCI e "draw" ∨ ContainsCI e "elbow") ∧
    (∀ errors, anchorActive errors = true ↔ ∃ e ∈ errors, ContainsCI e "anchor") ∧
    (∀ a b c d : Bool, ∃ errors, stanceActive errors = a ∧ alignmentActive errors = b ∧
      drawActive errors = c ∧ anchorActive errors = d) ∧
    (stanceActive [] = false ∧ alignmentActive [] = false ∧
      drawActive [] = false ∧ anchorActive [] = false) ∧
    (∀ points, getErrorAnnotations [] points = []) := by
  refine ⟨stanceActive_iff, alignmentActive_iff, drawActive_iff, anchorActive_iff,
    fun a b c d => ⟨mkErr a b c d, ?_⟩, by decide, fun _ => rfl⟩
  cases a <;> cases b <;> cases c <;> cases d <;> decide

/-- C6 counterexample: an error entry matching the alignment category only
through the keyword "alignment" leaves the arm edges and arm joints at the
neutral accent color, because the colorizer tests "draw"/"shoulder" and not
"alignment"; and a stance error leaves the knee joints (25, 26) at the
default white rather than the leg alert color. -/
theorem colorizer_c6_counterexample :
    alignmentActive ["Poor alignment"] = true ∧
    drawActive ["Poor alignment"] = false ∧
    edgeColor ["Poor alignment"] 11 13 = "#4ecdc4" ∧
    jointColor ["Poor alignment"] 14 = "#4ecdc4" ∧
    "#4ecdc4" ≠ "#ff6b6b" ∧
    stanceActive ["Stance width too narrow"] = true ∧
    jointColor ["Stance width too narrow"] 25 = "#ffffff" ∧
    "#ffffff" ≠ "#ff4444" := by
  decide

/-- C6 as amended: arm edges and arm joints (indices 11-16) take the alert
color exactly when some error entry case-insensitively contains "draw" or
"shoulder" (not the full alignment category, whose "alignment" keyword the
colorizer ignores), and the neutral accent color otherwise; leg edges
(indices 23-28) and the leg joints 23, 24, 27, 28 take the alert color
exactly when the stance category is active, and neutral otherwise, while
the knee joints 25 and 26 always render the default white; the head joint 0
takes its highlight color exactly when the anchor category is active. -/
theorem colorizer_c6_amended :
    (∀ errors i j, i ∈ armIdx ∨ j ∈ armIdx →
      edgeColor errors i j = if armAlert errors then "#ff6b6b" else "#4ecdc4") ∧
    (∀ errors i j, ¬(i ∈ armIdx ∨ j ∈ armIdx) → i ∈ legIdx ∨ j ∈ legIdx →
      edgeColor errors i j = if stanceActive errors then "#ff4444" else "#ffd93d") ∧
    (∀ errors i, i ∈ armIdx →
      jointColor errors i = if armAlert errors then "#ff6b6b" else "#4ecdc4") ∧
    (∀ errors i, i ∈ stanceJointIdx →
      jointColor errors i = if stanceActive errors then "#ff4444" else "#ffd93d") ∧
    (∀ errors, jointColor errors 25 = "#ffffff" ∧ jointColor errors 26 = "#ffffff") ∧
    (∀ errors, jointColor errors 0 = if anchorActive errors then "#4ecdc4" else "#ffffff") ∧
    (∀ errors, armAlert errors = true ↔
      ∃ e ∈ errors, ContainsCI e "draw" ∨ ContainsCI e "shoulder") ∧
    ("#ff6b6b" ≠ "#4ecdc4" ∧ "#ff4444" ≠ "#ffd93d" ∧ "#4ecdc4" ≠ "#ffffff") := by
  refine ⟨fun errors i j h => ?_, fun errors i j h1 h2 => ?_, fun errors i h => ?_,
    fun errors i h => ?_, fun errors => ⟨rfl, rfl⟩, fun errors => rfl, armAlert_iff,
    by decide⟩
  · simp [edgeColor, h]
  · simp [edgeColor, h1, h2]
  · simp [jointColor, h]
  · have hcases : i = 23 ∨ i = 24 ∨ i = 27 ∨ i = 28 := by simpa [stanceJointIdx] using h
    have harm : i ∉ armIdx := by rcases hcases with rfl | rfl | rfl | rfl <;> decide
    simp [jointColor, harm, h]
/-- C7: the coordinate mapper agrees pointwise with the spec's affine
formula ((x-0.5)*SX, -(y-0.5)*SY, z*SZ) at SX=4, SY=4, SZ=2; its output
components are exactly those expressions; it is deterministic; the output
y-coordinate reverses sign relative to (y - 0.5); and the map is applied
uniformly to every landmark of a frame (the mapped list has the same
length, with entry i the image of landmark i). -/
theorem coordinateMapper_c7 :
    (∀ l, landmarkToScene l = coordinateMapperSpec l) ∧
    (∀ l, (landmarkToScene l).x = (l.x - 1/2) * 4 ∧
      (landmarkToScene l).y = -((l.y - 1/2) * 4) ∧
      (landmarkToScene l).z = l.z * 2) ∧
    (∀ l₁ l₂ : Landmark, l₁ = l₂ → landmarkToScene l₁ = landmarkToScene l₂) ∧
    (∀ l : Landmark, 1/2 < l.y → (landmarkToScene l).y < 0) ∧
    (∀ l : Landmark, l.y < 1/2 → 0 < (landmarkToScene l).y) ∧
    (∀ landmarks, (framePoints landmarks).length = landmarks.length) ∧
    (∀ landmarks i, (framePoints landmarks).get? i =
      (landmarks.get? i).map landmarkToScene) := by
  refine ⟨fun l => ?_, fun l => ⟨rfl, by simp [landmarkToScene]; ring, rfl⟩,
    fun l₁ l₂ h => by rw [h], fun l h => ?_, fun l h => ?_,
    fun landmarks => List.length_map _ _, fun landmarks i => ?_⟩
  · simp [landmarkToScene, coordinateMapperSpec, specSX, specSY, specSZ,
      Point3.mk.injEq]
    ring
  · simp only [landmarkToScene]
    nlinarith
  · simp only [landmarkToScene]
    nlinarith
  · simp [framePoints, List.getElem?_map]
/-- C1: the claim that `pause()` cancels the active timer and that no tick
fires afterwards is violated by the code. From an idle 3-frame state,
`playAnimation` then `pauseAnimation` leaves `isPlaying = false` and the
frame at its pre-pause value 0, but the interval is still running (the
handle is local to `playAnimation`, so `pauseAnimation` cannot clear it),
and its next tick mutates `currentFrameIndex` from 0 to 1. -/
theorem pause_c1_bug :
    (pauseAnimation (playAnimation (initState 3))).isPlaying = false ∧
    (pauseAnimation (playAnimation (initState 3))).currentFrame = 0 ∧
    (pauseAnimation (playAnimation (initState 3))).timers = [3] ∧
    (intervalTick (pauseAnimation (playAnimation (initState 3))) 0).currentFrame = 1 := by
  decide

/-- C2: the claim that `play()` is a no-op when already Playing or on an
empty sequence is violated by the code. Calling `playAnimation` twice from
an idle 3-frame state leaves two concurrent timers running, and on a
loaded zero-length sequence (an empty array is truthy in JavaScript)
`playAnimation` still sets `isPlaying` and spawns a timer. -/
theorem play_c2_bug :
    (playAnimation (playAnimation (initState 3))).isPlaying = true ∧
    (playAnimation (playAnimation (initState 3))).timers = [3, 3] ∧
    (playAnimation (initState 0)).isPlaying = true ∧
    (playAnimation (initState 0)).timers = [0] := by
  decide

/-- C3: the claim that loading a new analysis while playing cancels the
prior timer is violated by the code. `analyzeVideo`'s success path resets
`currentFrameIndex` to 0 but clears no interval, so the timer spawned for
the old 3-frame sequence is still running after a 5-frame result is
loaded, and its next tick (driven by the old sequence's captured length)
mutates `currentFrameIndex` from 0 to 1. -/
theorem load_c3_bug :
    (loadAnalysis (playAnimation (initState 3)) 5).currentFrame = 0 ∧
    (loadAnalysis (playAnimation (initState 3)) 5).isPlaying = true ∧
    (loadAnalysis (playAnimation (initState 3)) 5).timers = [3] ∧
    (intervalTick (loadAnalysis (playAnimation (initState 3)) 5) 0).currentFrame = 1 := by
  decide

/-- C9: a frame whose `pose_landmarks` list is shorter than 33 entries is
skipped entirely: the component returns `null` — no edges, no joints, no
annotation directives — and its codomain has no error channel, so nothing
user-visible is raised. -/
theorem malformedFrame_c9 (poseData : List Frame) (currentFrame : Nat)
    (errors : List String) (f : Frame)
    (hf : poseData.get? currentFrame = some f)
    (hlen : f.pose_landmarks.length < 33) :
    PoseVisualization poseData currentFrame errors = none ∧
    edgesOf (PoseVisualization poseData currentFrame errors) = [] ∧
    jointsOf (PoseVisualization poseData currentFrame errors) = [] ∧
    directivesOf (PoseVisualization poseData currentFrame errors) = [] := by
  have h : PoseVisualization poseData currentFrame errors = none := by
    unfold PoseVisualization
    rw [hf]
    simp [hlen]
  exact ⟨h, by rw [h]; rfl, by rw [h]; rfl, by rw [h]; rfl⟩

/-- C9 witness: a single frame of 30 landmarks renders nothing. -/
theorem malformedFrame_c9_witness :
    PoseVisualization [{ pose_landmarks := List.replicate 30 { x := 0, y := 0, z := 0 } }] 0 [] = none ∧
    edgesOf (PoseVisualization [{ pose_landmarks := List.replicate 30 { x := 0, y := 0, z := 0 } }] 0 []) = [] ∧
    jointsOf (PoseVisualization [{ pose_landmarks := List.replicate 30 { x := 0, y := 0, z := 0 } }] 0 []) = [] ∧
    directivesOf (PoseVisualization [{ pose_landmarks := List.replicate 30 { x := 0, y := 0, z := 0 } }] 0 []) = [] :=
  malformedFrame_c9 _ 0 [] _ rfl (by decide)

/-- C8 counterexample: the claim's boundary example `score = 79 →
Intermediate` is false on the code: `getVideoLevel 79` is the Advanced
band (79 satisfies the `score >= 60` test), not Intermediate. -/
theorem skillLevel_c8_counterexample :
    (getVideoLevel 79).level = "Advanced" ∧ "Advanced" ≠ "Intermediate" := by
  constructor
  · norm_num [getVideoLevel]
  · decide
/-- C8 as amended: the skill-level classifier returns Expert iff score ≥ 80,
Advanced iff 60 ≤ score < 80, Intermediate iff 40 ≤ score < 60, Beginner
iff 20 ≤ score < 40 and Needs Practice iff score < 20 — inclusive lower
bounds, contiguous and exhaustive bands; at the boundaries, 79 is Advanced
(not Intermediate, as the claim's example has it), 80 Expert, 19 Needs
Practice and 20 Beginner. -/
theorem skillLevel_c8_amended :
    (∀ s : ℚ, ((getVideoLevel s).level = "Expert" ↔ 80 ≤ s) ∧
      ((getVideoLevel s).level = "Advanced" ↔ 60 ≤ s ∧ s < 80) ∧
      ((getVideoLevel s).level = "Intermediate" ↔ 40 ≤ s ∧ s < 60) ∧
      ((getVideoLevel s).level = "Beginner" ↔ 20 ≤ s ∧ s < 40) ∧
      ((getVideoLevel s).level = "Needs Practice" ↔ s < 20)) ∧
    (getVideoLevel 79).level = "Advanced" ∧
    (getVideoLevel 80).level = "Expert" ∧
    (getVideoLevel 19).level = "Needs Practice" ∧
    (getVideoLevel 20).level = "Beginner" := by
  refine ⟨fun s => ?_, by norm_num [getVideoLevel], by norm_num [getVideoLevel],
    by norm_num [getVideoLevel], by norm_num [getVideoLevel]⟩
  unfold getVideoLevel
  split_ifs with h1 h2 h3 h4 <;>
    refine ⟨?_, ?_, ?_, ?_, ?_⟩ <;>
    constructor <;>
    intro h <;>
    first
      | rfl
      | (exact absurd h (by decide))
      | linarith
      | (constructor <;> linarith)
theorem find?_append_or (l₁ l₂ : List (String × ℚ)) (p : (String × ℚ) → Bool) :
    (l₁ ++ l₂).find? p = ((l₁.find? p).orElse fun _ => l₂.find? p) := by
  induction l₁ with
  | nil => simp [Option.orElse]
  | cons a l ih =>
    by_cases h : p a
    · simp [List.find?_cons_of_pos _ h, Option.orElse]
    · simp [List.find?_cons_of_neg _ h, ih]

theorem objGet_append (p q : List (String × ℚ)) (k : String) :
    objGet (p ++ q) k = ((objGet q k).orElse fun _ => objGet p k) := by
  unfold objGet
  rw [List.reverse_append, find?_append_or]
  cases hq : List.find? (fun r => r.1 == k) q.reverse <;> simp [Option.orElse, hq]

theorem objGet_single_self (k : String) (v : ℚ) : objGet [(k, v)] k = some v := by
  simp [objGet, List.find?]

theorem objGet_single_ne (k k0 : String) (v : ℚ) (h : k ≠ k0) :
    objGet [(k0, v)] k = none := by
  have hb : (k0 == k) = false := beq_eq_false_iff_ne.mpr (Ne.symm h)
  simp [objGet, List.find?, hb]

/-- C10: `getCurrentAnalysis` merges the four phases' metric maps by object
spread in the fixed order stance, draw, anchor, release, so a key bound by
several phases resolves to the later phase's value (release before anchor
before draw before stance, here as an `orElse` chain); `overall_score` is
written last, hence always present with the report's own overall score no
matter what the phases bound; and with no loaded analysis it returns
exactly `{errors: [], metrics: {}}`. -/
theorem metricsAggregation_c10 :
    getCurrentAnalysis none = { errors := [], metrics := [] } ∧
    (∀ a : AnalysisReport,
      objGet (getCurrentAnalysis (some a)).metrics "overall_score" = some a.overall_score) ∧
    (∀ a : AnalysisReport, ∀ k : String, k ≠ "overall_score" →
      objGet (getCurrentAnalysis (some a)).metrics k =
        ((objGet (phaseMetrics a.release_analysis) k).orElse fun _ =>
          ((objGet (phaseMetrics a.anchor_analysis) k).orElse fun _ =>
            ((objGet (phaseMetrics a.draw_analysis) k).orElse fun _ =>
              objGet (phaseMetrics a.stance_analysis) k)))) := by
  refine ⟨rfl, fun a => ?_, fun a k hk => ?_⟩
  · simp only [getCurrentAnalysis]
    simp [objGet_append, objGet_single_self, Option.orElse]
  · simp only [getCurrentAnalysis]
    simp only [objGet_append, objGet_single_ne _ _ _ hk]
    cases objGet (phaseMetrics a.release_analysis) k <;>
      cases objGet (phaseMetrics a.anchor_analysis) k <;>
        cases objGet (phaseMetrics a.draw_analysis) k <;>
          simp [Option.orElse]
/-- The playback invariant for a loaded `N`-frame sequence: the loaded
length is `N`, the frame index is in range, and every running timer
captured length `N`. -/
def InvP (N : Nat) (s : AppState) : Prop :=
  s.poseLen = some N ∧ s.currentFrame < N ∧ ∀ l ∈ s.timers, l = N

theorem runOps_cons (s : AppState) (op : PlaybackOp) (ops : List PlaybackOp) :
    runOps s (op :: ops) = runOps (applyOp s op) ops := rfl

theorem runOps_nil (s : AppState) : runOps s [] = s := rfl

theorem runOps_append (s : AppState) (l₁ l₂ : List PlaybackOp) :
    runOps s (l₁ ++ l₂) = runOps (runOps s l₁) l₂ :=
  List.foldl_append _ _ _ _

theorem applyOp_inv (N : Nat) (hN : 1 ≤ N) (s : AppState) (h : InvP N s)
    (op : PlaybackOp) : InvP N (applyOp s op) := by
  obtain ⟨hp, hc, ht⟩ := h
  cases op with
  | play =>
    simp only [applyOp, playAnimation, hp]
    refine ⟨rfl, hc, fun l hl => ?_⟩
    rcases List.mem_append.mp hl with h1 | h1
    · exact ht l h1
    · simpa using h1
  | pause => exact ⟨hp, hc, ht⟩
  | reset => exact ⟨hp, hN, ht⟩
  | tick i =>
    simp only [applyOp, intervalTick]
    cases hg : s.timers.get? i with
    | none => exact ⟨hp, hc, ht⟩
    | some len =>
      have hlen : len = N := ht len (List.get?_mem hg)
      by_cases hcond : len - 1 ≤ s.currentFrame
      · simp only [if_pos hcond]
        exact ⟨hp, hc, fun l hl => ht l ((s.timers.eraseIdx_sublist i).subset hl)⟩
      · simp only [if_neg hcond]
        refine ⟨hp, ?_, ht⟩
        show s.currentFrame + 1 < N
        omega

theorem runOps_inv (N : Nat) (hN : 1 ≤ N) (ops : List PlaybackOp) (s : AppState)
    (h : InvP N s) : InvP N (runOps s ops) := by
  induction ops generalizing s with
  | nil => exact h
  | cons op ops ih => exact ih _ (applyOp_inv N hN s h op)

theorem ticksAdvance (N k : Nat) : ∀ c : Nat, c + k ≤ N - 1 → ∀ b : Bool,
    runOps ⟨some N, c, b, [N]⟩ (List.replicate k (PlaybackOp.tick 0)) =
      ⟨some N, c + k, b, [N]⟩ := by
  induction k with
  | zero =>
    intro c h b
    simp [runOps_nil]
  | succ k ih =>
    intro c h b
    rw [List.replicate_succ, runOps_cons]
    have hcond : ¬ (N - 1 ≤ c) := by omega
    have step : applyOp ⟨some N, c, b, [N]⟩ (PlaybackOp.tick 0) =
        ⟨some N, c + 1, b, [N]⟩ := by
      simp [applyOp, intervalTick, hcond]
    rw [step, ih (c + 1) (by omega) b]
    have hcc : c + 1 + k = c + (k + 1) := by omega
    rw [hcc]

/-- C4: for a loaded sequence of length N ≥ 1, the invariant
`currentFrameIndex < N` (and `0 ≤ currentFrameIndex`, by the Nat type)
holds in every state reachable from the fresh load by any sequence of
play/pause/reset/tick operations; and from the fresh load, `play()`
followed by N timer ticks ends Idle (isPlaying = false, no timer running)
with `currentFrameIndex = N - 1`. -/
theorem playback_c4 (N : Nat) (hN : 1 ≤ N) :
    (∀ ops, (runOps (initState N) ops).currentFrame < N) ∧
    runOps (initState N) (PlaybackOp.play :: List.replicate N (PlaybackOp.tick 0)) =
      { poseLen := some N, currentFrame := N - 1, isPlaying := false, timers := [] } := by
  constructor
  · intro ops
    exact (runOps_inv N hN ops (initState N) ⟨rfl, hN, by simp [initState]⟩).2.1
  · rw [runOps_cons]
    have hplay : applyOp (initState N) PlaybackOp.play =
        ⟨some N, 0, true, [N]⟩ := by
      simp [applyOp, playAnimation, initState]
    rw [hplay]
    obtain ⟨m, rfl⟩ : ∃ m, N = m + 1 := ⟨N - 1, by omega⟩
    rw [List.replicate_succ', runOps_append, ticksAdvance (m + 1) m 0 (by omega) true]
    have hz : (0 : Nat) + m = m := by omega
    rw [hz, runOps_cons, runOps_nil]
    have hcond : (m + 1) - 1 ≤ m := by omega
    simp [applyOp, intervalTick, hcond]

/-- C4 witness at N = 3: the invariant holds on every operation sequence,
and play followed by 3 ticks ends Idle at frame 2. -/
theorem playback_c4_witness :
    (∀ ops, (runOps (initState 3) ops).currentFrame < 3) ∧
    runOps (initState 3) (PlaybackOp.play :: List.replicate 3 (PlaybackOp.tick 0)) =
      { poseLen := some 3, currentFrame := 3 - 1, isPlaying := false, timers := [] } :=
  playback_c4 3 (by decide)